import Mathlib

/-!
# Verification of the wdk-sys binding-input layer of windows-drivers-rs

This file embeds, in Lean, the two C header translation units that feed the
binding generator of the repository:

* `src/unnamed/part_000` (the main conditionally-compiled input header), and
* `src/crates/wdk-sys/src/usb-input.h`.

Two aspects of those files are modelled:

1. The preprocessor conditional structure (`#if defined(UMDF_VERSION_MAJOR)`,
   `#ifdef _KERNEL_MODE`, `#if defined(KMDF_VERSION_MAJOR) || defined(UMDF_VERSION_MAJOR)`)
   as a pure function from a record of configuration flags to the ordered list
   of emitted entries (header inclusions and hand-written type declarations).

2. The memory layout of the two hand-written descriptor-table types
   `KGDTENTRY64` and `KIDTENTRY64`, via a small model of the MSVC x86-64
   struct/union/bitfield layout algorithm (the targets of this repository are
   Windows drivers compiled with the MSVC ABI).  The model covers exactly the
   constructs those declarations use: plain scalar fields, nested structs and
   unions, and nonzero-width bitfield members that pack into storage units of
   their base type's size as long as they fit.
-/

mutual

/-- A C type, as far as layout is concerned.  `scalar` carries the size and
alignment in bytes of a scalar type on MSVC x86-64.  Structs and unions carry
their member list; members are either ordinary fields or bitfields (base-type
size in bytes, bit width). -/
inductive CType : Type where
  | scalar (size align : Nat)
  | cstruct (ms : CMembers)
  | cunion (ms : CMembers)

/-- The member list of a C struct or union. -/
inductive CMembers : Type where
  | nil : CMembers
  | field (t : CType) (rest : CMembers) : CMembers
  | bitfield (base width : Nat) (rest : CMembers) : CMembers

end

/-- Round `n` up to the next multiple of `a` (alignment in bytes). -/
def alignUp (n a : Nat) : Nat :=
  if a ≤ 1 then n else ((n + a - 1) / a) * a

mutual

/-- Size and alignment, in bytes, of a C type under the MSVC x86-64 layout
rules. -/
def ctySize : CType → Nat × Nat
  | .scalar s a => (s, a)
  | .cstruct ms => structLayoutGo ms 0 1 none
  | .cunion ms => unionLayoutGo ms 0 1

/-- Walk the members of a struct, tracking the current offset in bytes, the
maximal member alignment so far, and the open bitfield storage unit, if any,
as a pair (base-type size, bits already used).  A plain field closes the open
unit; a bitfield packs into the open unit when its base size matches and the
width still fits, and otherwise allocates a fresh aligned unit of its base
size.  The final size is the end offset rounded up to the struct alignment. -/
def structLayoutGo : CMembers → Nat → Nat → Option (Nat × Nat) → Nat × Nat
  | .nil, cur, algn, _ => (alignUp cur algn, algn)
  | .field t rest, cur, algn, _ =>
      let sa := ctySize t
      structLayoutGo rest (alignUp cur sa.2 + sa.1) (max algn sa.2) none
  | .bitfield b w rest, cur, algn, u =>
      match u with
      | some bu =>
          if bu.1 = b ∧ bu.2 + w ≤ 8 * b then
            structLayoutGo rest cur algn (some (b, bu.2 + w))
          else
            structLayoutGo rest (alignUp cur b + b) (max algn b) (some (b, w))
      | none =>
          structLayoutGo rest (alignUp cur b + b) (max algn b) (some (b, w))

/-- Walk the members of a union, tracking the maximal member size and the
maximal member alignment; the final size is the maximal size rounded up to
the union alignment. -/
def unionLayoutGo : CMembers → Nat → Nat → Nat × Nat
  | .nil, sz, algn => (alignUp sz algn, algn)
  | .field t rest, sz, algn =>
      let sa := ctySize t
      unionLayoutGo rest (max sz sa.1) (max algn sa.2)
  | .bitfield b _ rest, sz, algn =>
      unionLayoutGo rest (max sz b) (max algn b)

end

/-- `unsigned short` on MSVC x86-64: 2 bytes, 2-byte aligned. -/
def ushort : CType := .scalar 2 2

/-- `unsigned char`: 1 byte, 1-byte aligned. -/
def uchar : CType := .scalar 1 1

/-- `unsigned long` on MSVC (LLP64): 4 bytes, 4-byte aligned. -/
def ulong : CType := .scalar 4 4

/-- `unsigned __int64`: 8 bytes, 8-byte aligned. -/
def uint64 : CType := .scalar 8 8

/-- The `Bytes` view inside `KGDTENTRY64`: four `unsigned char` fields
`BaseMiddle`, `Flags1`, `Flags2`, `BaseHigh`. -/
def kgdtBytes : CType :=
  .cstruct (.field uchar (.field uchar (.field uchar (.field uchar .nil))))

/-- The `Bits` view inside `KGDTENTRY64`: ten `unsigned long` bitfields
`BaseMiddle:8`, `Type:5`, `Dpl:2`, `Present:1`, `LimitHigh:4`, `System:1`,
`LongMode:1`, `DefaultBig:1`, `Granularity:1`, `BaseHigh:8`. -/
def kgdtBits : CType :=
  .cstruct (.bitfield 4 8 (.bitfield 4 5 (.bitfield 4 2 (.bitfield 4 1
    (.bitfield 4 4 (.bitfield 4 1 (.bitfield 4 1 (.bitfield 4 1
    (.bitfield 4 1 (.bitfield 4 8 .nil))))))))))

/-- The anonymous union of the `Bytes` and `Bits` views in `KGDTENTRY64`. -/
def kgdtMiddle : CType := .cunion (.field kgdtBytes (.field kgdtBits .nil))

/-- The structured (named-field) view of `KGDTENTRY64`: `LimitLow`,
`BaseLow`, the anonymous `Bytes`/`Bits` union, `BaseUpper`, `MustBeZero`. -/
def kgdtStruct : CType :=
  .cstruct (.field ushort (.field ushort (.field kgdtMiddle
    (.field ulong (.field ulong .nil)))))

/-- The full `KGDTENTRY64` union: the structured view overlaid with the
`unsigned __int64 Alignment` raw-integer view. -/
def KGDTENTRY64 : CType := .cunion (.field kgdtStruct (.field uint64 .nil))

/-- The structured view of `KIDTENTRY64`: `OffsetLow`, `Selector`, the
`unsigned short` bitfields `IstIndex:3`, `Reserved0:5`, `Type:5`, `Dpl:2`,
`Present:1`, then `OffsetMiddle`, `OffsetHigh`, `Reserved1`. -/
def kidtStruct : CType :=
  .cstruct (.field ushort (.field ushort (.bitfield 2 3 (.bitfield 2 5
    (.bitfield 2 5 (.bitfield 2 2 (.bitfield 2 1 (.field ushort
    (.field ulong (.field ulong .nil))))))))))

/-- The full `KIDTENTRY64` union: the structured view overlaid with the
`unsigned __int64 Alignment` raw-integer view. -/
def KIDTENTRY64 : CType := .cunion (.field kidtStruct (.field uint64 .nil))

/-- Per-member (bit offset, bit width) list of a struct's member walk, with
the same packing decisions as `structLayoutGo`.  The open-unit state also
records the unit's byte offset so that packed bitfields get their position
inside the unit.  A plain field of size `s` is reported as an `8*s`-bit-wide
member at its byte offset. -/
def structBitOffsetsGo : CMembers → Nat → Option (Nat × Nat × Nat) → List (Nat × Nat)
  | .nil, _, _ => []
  | .field t rest, cur, _ =>
      let sa := ctySize t
      (8 * alignUp cur sa.2, 8 * sa.1) ::
        structBitOffsetsGo rest (alignUp cur sa.2 + sa.1) none
  | .bitfield b w rest, cur, u =>
      match u with
      | some bu =>
          if bu.1 = b ∧ bu.2.1 + w ≤ 8 * b then
            (8 * bu.2.2 + bu.2.1, w) ::
              structBitOffsetsGo rest cur (some (b, bu.2.1 + w, bu.2.2))
          else
            (8 * alignUp cur b, w) ::
              structBitOffsetsGo rest (alignUp cur b + b) (some (b, w, alignUp cur b))
      | none =>
          (8 * alignUp cur b, w) ::
            structBitOffsetsGo rest (alignUp cur b + b) (some (b, w, alignUp cur b))

/-- The (bit offset, bit width) list of the fields of a struct type; empty
for non-struct types. -/
def fieldBitLayout : CType → List (Nat × Nat)
  | .cstruct ms => structBitOffsetsGo ms 0 none
  | _ => []

/-- Total bit width of a (bit offset, bit width) field list. -/
def bitWidthSum (l : List (Nat × Nat)) : Nat :=
  (l.map Prod.snd).sum

/-- The field list is gap-free starting at bit offset `off`: each member
begins exactly where the previous one ended. -/
def contiguousB : Nat → List (Nat × Nat) → Bool
  | _, [] => true
  | off, p :: rest => p.1 == off && contiguousB (p.1 + p.2) rest

/-- The configuration flags consulted by the preprocessor conditionals of the
two source files: whether `UMDF_VERSION_MAJOR` is defined (and with which
value), whether `KMDF_VERSION_MAJOR` is defined, and whether `_KERNEL_MODE`
is defined.  No other macro is tested anywhere in either file. -/
structure Flags : Type where
  umdfVersionMajor : Option Nat
  kmdfVersionMajor : Option Nat
  kernelMode : Bool
deriving DecidableEq

/-- The ordered list of entries emitted by `src/unnamed/part_000` under a
given flag configuration: each `#include` contributes its header name in
textual order, and the two hand-written `typedef union` declarations
contribute their type names.  Commented-out includes contribute nothing.
The outer conditional is `#if defined(UMDF_VERSION_MAJOR)`, whose else-branch
holds everything from `ntifs.h` through `KIDTENTRY64` with an inner
`#ifdef _KERNEL_MODE` block; after it, `wdf.h` is included when
`KMDF_VERSION_MAJOR` or `UMDF_VERSION_MAJOR` is defined, and
`TraceLoggingProvider.h` unconditionally. -/
def inputSurface (f : Flags) : List String :=
  (if f.umdfVersionMajor.isSome then
    ["windows.h"]
  else
    ["ntifs.h", "ntddk.h",
     "hidclass.h", "hidport.h", "hidsdi.h", "kbdmou.h", "ntdd8042.h", "vhf.h",
     "usbspec.h", "usb.h", "usbbusif.h", "usbioctl.h", "usbdlib.h",
     "usbfnbase.h", "usbfnattach.h", "usbfnioctl.h",
     "wdf.h", "wdfusb.h"]
    ++ (if f.kernelMode then
          ["ntintsafe.h", "ntstrsafe.h", "pepfx.h", "ntddstor.h",
           "ude/1.0/UdeCx.h"]
        else [])
    ++ ["spb.h", "spb/1.1/spbcx.h", "reshub.h", "pwmutil.h",
        "gpio.h", "gpioclx.h", "ntddpar.h", "ntddser.h", "parallel.h",
        "KGDTENTRY64", "KIDTENTRY64"])
  ++ (if f.kmdfVersionMajor.isSome || f.umdfVersionMajor.isSome then
        ["wdf.h"]
      else [])
  ++ ["TraceLoggingProvider.h"]

/-- The ordered list of entries emitted by
`src/crates/wdk-sys/src/usb-input.h`: an unconditional include list, then
`ude/1.0/UdeCx.h` under `#ifdef _KERNEL_MODE`. -/
def usbInputSurface (f : Flags) : List String :=
  ["ntddk.h",
   "usbspec.h", "usb.h", "usbbusif.h", "usbioctl.h", "usbdlib.h",
   "usbfnbase.h", "usbfnattach.h", "usbfnioctl.h",
   "wdf.h", "wdfusb.h"]
  ++ (if f.kernelMode then ["ude/1.0/UdeCx.h"] else [])

/-- A KMDF kernel-mode build: `KMDF_VERSION_MAJOR` and `_KERNEL_MODE`
defined, `UMDF_VERSION_MAJOR` undefined. -/
def kmdfKernelFlags : Flags := ⟨none, some 1, true⟩

/-- A build defining no optional macro at all. -/
def noFlags : Flags := ⟨none, none, false⟩

/-- An inconsistent configuration activating both mutually exclusive
execution modes: `UMDF_VERSION_MAJOR` defined and `_KERNEL_MODE` defined. -/
def bothModesFlags : Flags := ⟨some 2, none, true⟩

/-- `a` occurs before `b` in the list `l` (both occur, and the first
occurrence of `a` is strictly earlier). -/
def precedesIn (l : List String) (a b : String) : Prop :=
  a ∈ l ∧ b ∈ l ∧ l.indexOf a < l.indexOf b

instance (l : List String) (a b : String) : Decidable (precedesIn l a b) := by
  unfold precedesIn
  infer_instance

/-- Claim C1, counterexample: the claim that the structured view and the
raw-integer alias of KGDTENTRY64 both report 8 bytes is false — the
structured view is 16 bytes, the `Alignment` alias is 8 bytes, and the two
widths differ. -/
theorem c1_counterexample :
    (ctySize kgdtStruct).1 = 16 ∧ (ctySize uint64).1 = 8 ∧
    (ctySize kgdtStruct).1 ≠ (ctySize uint64).1 := by decide

/-- Claim C1, amended: for both hand-derived layout types the structured view
is 16 bytes (128 bits) while the raw-integer `Alignment` alias is 8 bytes, so
the two views are unequal in width; the full union's width equals the
structured view's width, 16 bytes, for both KGDTENTRY64 and KIDTENTRY64. -/
theorem c1_hand_derived_widths :
    ctySize kgdtStruct = (16, 4) ∧ ctySize KGDTENTRY64 = (16, 8) ∧
    ctySize kidtStruct = (16, 4) ∧ ctySize KIDTENTRY64 = (16, 8) ∧
    ctySize uint64 = (8, 8) ∧
    (ctySize KGDTENTRY64).1 = (ctySize kgdtStruct).1 ∧
    (ctySize KIDTENTRY64).1 = (ctySize kidtStruct).1 := by decide

/-- Claim C2, counterexample: the structured fields of KIDTENTRY64 sum to 128
bits while the raw-integer alias is 64 bits, exactly the scenario the claim
says must be rejected with a fatal error — yet the declaration is produced:
it appears in the surface of a kernel build, with the union simply taking the
larger width of 16 bytes. -/
theorem c2_counterexample :
    bitWidthSum (fieldBitLayout kidtStruct) = 128 ∧
    8 * (ctySize uint64).1 = 64 ∧
    "KIDTENTRY64" ∈ inputSurface kmdfKernelFlags ∧
    ctySize KIDTENTRY64 = (16, 8) := by decide

/-- Claim C2, amended: with the interrupt-descriptor-entry structured fields
summing to 128 bits and the raw-integer alias declared at 64 bits, the code
produces the KIDTENTRY64 declaration in every non-UMDF build rather than
rejecting it; C's union rule gives the union the larger width (16 bytes) and
no width-mismatch error exists. -/
theorem c2_no_width_rejection :
    ∀ f : Flags, f.umdfVersionMajor = none →
      "KIDTENTRY64" ∈ inputSurface f ∧
      bitWidthSum (fieldBitLayout kidtStruct) = 128 ∧
      8 * (ctySize uint64).1 = 64 ∧
      (ctySize KIDTENTRY64).1 = 16 := by
  intro f h
  obtain ⟨u, k, b⟩ := f
  simp only at h
  subst h
  refine ⟨?_, by decide, by decide, by decide⟩
  cases k <;> cases b <;> simp [inputSurface]

/-- Witness for c2_no_width_rejection at a concrete kernel configuration. -/
theorem c2_no_width_rejection_witness :
    "KIDTENTRY64" ∈ inputSurface kmdfKernelFlags ∧
    bitWidthSum (fieldBitLayout kidtStruct) = 128 ∧
    8 * (ctySize uint64).1 = 64 ∧
    (ctySize KIDTENTRY64).1 = 16 :=
  c2_no_width_rejection kmdfKernelFlags rfl

/-- Claim C3, counterexample: no compile-time width-equality check exists —
KGDTENTRY64 is emitted into the surface of a kernel build even though its
structured view's width differs from the raw-integer view's width, which
such a check would have rejected. -/
theorem c3_counterexample :
    (ctySize kgdtStruct).1 ≠ (ctySize uint64).1 ∧
    "KGDTENTRY64" ∈ inputSurface kmdfKernelFlags := by decide

/-- Claim C3, amended: the program contains no assertion verifying
sizeof(structured view) = sizeof(raw-integer view); both hand-derived types
are declared in every non-UMDF build although each structured view is 16
bytes versus the 8-byte raw-integer view, so a width disagreement does not
fail the build. -/
theorem c3_no_size_assertion :
    ∀ f : Flags, f.umdfVersionMajor = none →
      ("KGDTENTRY64" ∈ inputSurface f ∧ "KIDTENTRY64" ∈ inputSurface f) ∧
      (ctySize kgdtStruct).1 ≠ (ctySize uint64).1 ∧
      (ctySize kidtStruct).1 ≠ (ctySize uint64).1 := by
  intro f h
  obtain ⟨u, k, b⟩ := f
  simp only at h
  subst h
  refine ⟨⟨?_, ?_⟩, by decide, by decide⟩ <;>
    cases k <;> cases b <;> simp [inputSurface]

/-- Witness for c3_no_size_assertion at a concrete kernel configuration. -/
theorem c3_no_size_assertion_witness :
    ("KGDTENTRY64" ∈ inputSurface kmdfKernelFlags ∧
     "KIDTENTRY64" ∈ inputSurface kmdfKernelFlags) ∧
    (ctySize kgdtStruct).1 ≠ (ctySize uint64).1 ∧
    (ctySize kidtStruct).1 ≠ (ctySize uint64).1 :=
  c3_no_size_assertion kmdfKernelFlags rfl

/-- Claim C4, counterexample: with both UMDF_VERSION_MAJOR and _KERNEL_MODE
defined, the build does not fail — a full (user-mode) surface is produced,
with the kernel branch silently skipped. -/
theorem c4_counterexample :
    inputSurface bothModesFlags =
      ["windows.h", "wdf.h", "TraceLoggingProvider.h"] ∧
    inputSurface bothModesFlags ≠ [] ∧
    "ntifs.h" ∉ inputSurface bothModesFlags ∧
    "ntddstor.h" ∉ inputSurface bothModesFlags := by decide

/-- Claim C4, amended: when UMDF_VERSION_MAJOR is defined, the outer `#if`
selects the user-mode branch regardless of _KERNEL_MODE, silently and with no
error: the surface is exactly windows.h, wdf.h, TraceLoggingProvider.h. -/
theorem c4_umdf_branch_wins :
    ∀ f : Flags, f.umdfVersionMajor.isSome = true →
      inputSurface f = ["windows.h", "wdf.h", "TraceLoggingProvider.h"] := by
  intro f h
  obtain ⟨u, k, b⟩ := f
  cases u with
  | none => simp at h
  | some v => simp [inputSurface]

/-- Witness for c4_umdf_branch_wins at the double-flag configuration. -/
theorem c4_umdf_branch_wins_witness :
    inputSurface bothModesFlags =
      ["windows.h", "wdf.h", "TraceLoggingProvider.h"] :=
  c4_umdf_branch_wins bothModesFlags rfl

/-- Claim C5, counterexample: in a build where every optional flag is absent
(no UMDF, no KMDF, no _KERNEL_MODE, and there exists no SPB version flag in
the code at all), the SPB group is nevertheless included in the surface —
the subsystem is not excluded by default. -/
theorem c5_counterexample :
    "spb.h" ∈ inputSurface noFlags ∧
    "spb/1.1/spbcx.h" ∈ inputSurface noFlags := by decide

/-- Claim C5, amended: the groups that are flag-gated do fail closed — the
_KERNEL_MODE-only block is excluded whenever _KERNEL_MODE is absent, and
windows.h is excluded whenever UMDF_VERSION_MAJOR is absent — but the SPB
group carries no version flag in the code and is included unconditionally in
every non-UMDF build. -/
theorem c5_fail_closed_except_spb :
    ∀ f : Flags,
      (f.kernelMode = false →
        "ntddstor.h" ∉ inputSurface f ∧ "ude/1.0/UdeCx.h" ∉ inputSurface f) ∧
      (f.umdfVersionMajor = none → "windows.h" ∉ inputSurface f) ∧
      (f.umdfVersionMajor = none →
        "spb.h" ∈ inputSurface f ∧ "spb/1.1/spbcx.h" ∈ inputSurface f) := by
  intro f
  obtain ⟨u, k, b⟩ := f
  refine ⟨?_, ?_, ?_⟩
  · intro h
    simp only at h
    subst h
    cases u <;> cases k <;> simp [inputSurface]
  · intro h
    simp only at h
    subst h
    cases k <;> cases b <;> simp [inputSurface]
  · intro h
    simp only at h
    subst h
    cases k <;> cases b <;> simp [inputSurface]

/-- Witness for c5_fail_closed_except_spb at the empty flag configuration. -/
theorem c5_fail_closed_except_spb_witness :
    ("ntddstor.h" ∉ inputSurface noFlags ∧
     "ude/1.0/UdeCx.h" ∉ inputSurface noFlags) ∧
    "windows.h" ∉ inputSurface noFlags ∧
    ("spb.h" ∈ inputSurface noFlags ∧
     "spb/1.1/spbcx.h" ∈ inputSurface noFlags) :=
  ⟨(c5_fail_closed_except_spb noFlags).1 rfl,
   (c5_fail_closed_except_spb noFlags).2.1 rfl,
   (c5_fail_closed_except_spb noFlags).2.2 rfl⟩

/-- Claim C6: in every build with UMDF_VERSION_MAJOR defined, the kernel-only
groups — the hand-derived descriptor-table types KGDTENTRY64 and KIDTENTRY64,
the base kernel headers, and the _KERNEL_MODE child block — are absent from
the surface; since the statement holds for every flag record with
UMDF_VERSION_MAJOR set, it holds in particular whatever the value of the
child flag _KERNEL_MODE, which is never consulted under the UMDF branch. -/
theorem c6_umdf_excludes_kernel_groups :
    ∀ f : Flags, f.umdfVersionMajor.isSome = true →
      "KGDTENTRY64" ∉ inputSurface f ∧ "KIDTENTRY64" ∉ inputSurface f ∧
      "ntifs.h" ∉ inputSurface f ∧ "ntddk.h" ∉ inputSurface f ∧
      "ntddstor.h" ∉ inputSurface f ∧ "ude/1.0/UdeCx.h" ∉ inputSurface f := by
  intro f h
  obtain ⟨u, k, b⟩ := f
  cases u with
  | none => simp at h
  | some v => cases k <;> cases b <;> simp [inputSurface]

/-- Witness for c6_umdf_excludes_kernel_groups at a configuration where the
child flag _KERNEL_MODE is active although the parent branch is excluded. -/
theorem c6_umdf_excludes_kernel_groups_witness :
    "KGDTENTRY64" ∉ inputSurface bothModesFlags ∧
    "KIDTENTRY64" ∉ inputSurface bothModesFlags ∧
    "ntifs.h" ∉ inputSurface bothModesFlags ∧
    "ntddk.h" ∉ inputSurface bothModesFlags ∧
    "ntddstor.h" ∉ inputSurface bothModesFlags ∧
    "ude/1.0/UdeCx.h" ∉ inputSurface bothModesFlags :=
  c6_umdf_excludes_kernel_groups bothModesFlags rfl

/-- Claim C7, counterexample: in a kernel-mode build (and there is no
storage-extension flag anywhere in the code for it to be present), the
storage header ntddstor.h is included in the surface, not excluded. -/
theorem c7_counterexample : "ntddstor.h" ∈ inputSurface kmdfKernelFlags := by
  decide

/-- Claim C7, amended: the code has no storage-extension flag; the storage
group (ntddstor.h) is included exactly when the UMDF branch is not taken and
_KERNEL_MODE is defined, so every kernel-mode build includes it and every
build without _KERNEL_MODE excludes it. -/
theorem c7_storage_follows_kernel_mode :
    ∀ f : Flags,
      "ntddstor.h" ∈ inputSurface f ↔
        f.umdfVersionMajor = none ∧ f.kernelMode = true := by
  intro f
  obtain ⟨u, k, b⟩ := f
  cases u <;> cases k <;> cases b <;> simp [inputSurface]

/-- Witness for c7_storage_follows_kernel_mode at a kernel configuration. -/
theorem c7_storage_follows_kernel_mode_witness :
    "ntddstor.h" ∈ inputSurface kmdfKernelFlags ↔
      kmdfKernelFlags.umdfVersionMajor = none ∧
      kmdfKernelFlags.kernelMode = true :=
  c7_storage_follows_kernel_mode kmdfKernelFlags

/-- Claim C8: both surfaces are pure functions of the flag record alone — two
builds with equal flags produce equal (hence byte-for-byte identical) ordered
entry lists, for the main input header and for usb-input.h alike. -/
theorem c8_deterministic_surface :
    ∀ f g : Flags, f = g →
      inputSurface f = inputSurface g ∧
      usbInputSurface f = usbInputSurface g := by
  intro f g h
  subst h
  exact ⟨rfl, rfl⟩

/-- Witness for c8_deterministic_surface at a concrete configuration. -/
theorem c8_deterministic_surface_witness :
    inputSurface kmdfKernelFlags = inputSurface kmdfKernelFlags ∧
    usbInputSurface kmdfKernelFlags = usbInputSurface kmdfKernelFlags :=
  c8_deterministic_surface kmdfKernelFlags kmdfKernelFlags rfl

/-- Claim C9: in every configuration that emits the USB groups (any non-UMDF
build of the main header, and every build of usb-input.h), the core USB
headers usbspec.h and usb.h precede every header that references them
(usbbusif.h, usbioctl.h, usbdlib.h, the usbfn headers, wdfusb.h), and the
core framework header wdf.h precedes wdfusb.h, in both source files. -/
theorem c9_usb_dependency_order :
    ∀ f : Flags, f.umdfVersionMajor = none →
      (∀ d ∈ ["usbbusif.h", "usbioctl.h", "usbdlib.h",
              "usbfnbase.h", "usbfnattach.h", "usbfnioctl.h", "wdfusb.h"],
        precedesIn (inputSurface f) "usbspec.h" d ∧
        precedesIn (inputSurface f) "usb.h" d ∧
        precedesIn (usbInputSurface f) "usbspec.h" d ∧
        precedesIn (usbInputSurface f) "usb.h" d) ∧
      precedesIn (inputSurface f) "wdf.h" "wdfusb.h" ∧
      precedesIn (usbInputSurface f) "wdf.h" "wdfusb.h" := by
  intro f h
  obtain ⟨u, k, b⟩ := f
  simp only at h
  subst h
  cases k with
  | none => cases b <;> decide
  | some v =>
    have : inputSurface ⟨none, some v, b⟩ = inputSurface ⟨none, some 0, b⟩ := by
      simp [inputSurface]
    rw [this]
    have h2 : usbInputSurface ⟨none, some v, b⟩ = usbInputSurface ⟨none, some 0, b⟩ := by
      simp [usbInputSurface]
    rw [h2]
    cases b <;> decide

/-- Witness for c9_usb_dependency_order at a kernel configuration. -/
theorem c9_usb_dependency_order_witness :
    precedesIn (inputSurface kmdfKernelFlags) "wdf.h" "wdfusb.h" ∧
    precedesIn (usbInputSurface kmdfKernelFlags) "wdf.h" "wdfusb.h" :=
  (c9_usb_dependency_order kmdfKernelFlags rfl).2

/-- Claim C10: inside KGDTENTRY64, the Bytes view is four 8-bit fields at bit
offsets 0, 8, 16, 24 and the Bits view is ten bitfields of widths
8, 5, 2, 1, 4, 1, 1, 1, 1, 8 packed gap-free into one 32-bit unit; each view
totals exactly 32 bits, each occupies exactly 4 bytes with no padding between
fields, and their union is 4 bytes as well, so both views alias the same 4
bytes of storage. -/
theorem c10_gdt_middle_views :
    fieldBitLayout kgdtBytes = [(0, 8), (8, 8), (16, 8), (24, 8)] ∧
    fieldBitLayout kgdtBits =
      [(0, 8), (8, 5), (13, 2), (15, 1), (16, 4), (20, 1),
       (21, 1), (22, 1), (23, 1), (24, 8)] ∧
    bitWidthSum (fieldBitLayout kgdtBytes) = 32 ∧
    bitWidthSum (fieldBitLayout kgdtBits) = 32 ∧
    contiguousB 0 (fieldBitLayout kgdtBytes) = true ∧
    contiguousB 0 (fieldBitLayout kgdtBits) = true ∧
    ctySize kgdtBytes = (4, 1) ∧
    ctySize kgdtBits = (4, 4) ∧
    ctySize kgdtMiddle = (4, 4) := by decide
